import Mathlib

/-!
Verification development for the GCAM configuration-ensemble generator
(`functions-checkpoint.py`).  The Python module is shallowly embedded:

* `xml.etree.ElementTree` element trees become the inductive type `XNode`
  (elements carry tag, attribute list, optional text and children;
  comments are a separate constructor, matching `ET.Comment` nodes,
  which never compare equal to a string tag in `find`);
* in-place mutation of a deep copy becomes pure tree rebuilding, and the
  stateful `BaseTemplateManager` is threaded explicitly, so that frame
  claims about the canonical template are expressible;
* the file system is a parameter `FS` mapping a pathway id to the parsed
  component list of its source file (`none` = file missing or malformed,
  which is exactly the condition under which the Python extractor
  fail-softs to an empty list);
* the thread-pool driver is modelled by an explicit completion order
  (any permutation of the submitted scenario list), since
  `as_completed` guarantees nothing about ordering.

String primitives used by the Python code (`startswith`, `replace`,
`strip`, f-strings) are given structurally recursive models over
`List Char` so that every definition evaluates inside the kernel.
-/

/-- Model of Python `str.startswith`: is `pre` a prefix of `s`. -/
def startsWithL : List Char → List Char → Bool
  | _, [] => true
  | [], _ :: _ => false
  | c :: s, p :: ps => c = p && startsWithL s ps

/-- Wrapper of the prefix test on `String`. -/
def strStarts (s pre : String) : Bool := startsWithL s.data pre.data

/-- Fuel-driven core of `replace`: replaces every occurrence of `pat`
(non-empty) by `rep`, scanning left to right.  Fuel bounds the number of
scanning steps; `fuel = s.length` suffices. -/
def replaceFuelL (pat rep : List Char) : Nat → List Char → List Char
  | 0, s => s
  | _ + 1, [] => []
  | fuel + 1, c :: rest =>
    if pat ≠ [] && startsWithL (c :: rest) pat then
      rep ++ replaceFuelL pat rep fuel ((c :: rest).drop pat.length)
    else
      c :: replaceFuelL pat rep fuel rest

/-- Model of Python `s.replace(pat, rep)` (all occurrences, left to right). -/
def strReplace (s pat rep : String) : String :=
  ⟨replaceFuelL pat.data rep.data s.data.length s.data⟩

/-- Model of Python `s.strip()`: whitespace removed from both ends. -/
def strStrip (s : String) : String :=
  ⟨((s.data.dropWhile Char.isWhitespace).reverse.dropWhile Char.isWhitespace).reverse⟩

/-- A node of an `xml.etree.ElementTree` document: either an element
(tag, attributes, text, children) or a comment node. -/
inductive XNode where
  | elem (tag : String) (attrs : List (String × String)) (text : Option String)
      (children : List XNode)
  | comment (text : String)

/-- Model of `element.get(name)`: attribute lookup. -/
def getAttr (attrs : List (String × String)) (key : String) : Option String :=
  match attrs with
  | [] => none
  | (k, v) :: rest => if k = key then some v else getAttr rest key

/-- Does this node match `tag` for the purposes of `find` / tag tests?
Comment nodes never match a string tag (their `.tag` is the `ET.Comment`
function object). -/
def isElemTag (n : XNode) (tag : String) : Bool :=
  match n with
  | XNode.elem t _ _ _ => t = tag
  | XNode.comment _ => false

/-- Model of `root.find(tag)`: first direct child element with the given tag. -/
def findChild (root : XNode) (tag : String) : Option XNode :=
  match root with
  | XNode.elem _ _ _ cs => cs.find? (fun n => isElemTag n tag)
  | XNode.comment _ => none

/-- Rewrite the children of the first direct child element whose tag is
`target` using `f`; every other node is left untouched.  This is the
functional counterpart of `section = root.find(target)` followed by
in-place mutation of `section`'s contents. -/
def updateChildrenOfFirst (target : String) (f : List XNode → List XNode) :
    List XNode → List XNode
  | [] => []
  | XNode.elem t a tx cs :: rest =>
    if t = target then XNode.elem t a tx (f cs) :: rest
    else XNode.elem t a tx cs :: updateChildrenOfFirst target f rest
  | XNode.comment tx :: rest => XNode.comment tx :: updateChildrenOfFirst target f rest

/-- Apply `updateChildrenOfFirst` below a root element. -/
def updateSection (target : String) (f : List XNode → List XNode) (root : XNode) : XNode :=
  match root with
  | XNode.elem t a tx cs => XNode.elem t a tx (updateChildrenOfFirst target f cs)
  | XNode.comment tx => XNode.comment tx

/-- Set the text of the first `Value` child whose `name` attribute is
`nm` (the loop-with-`break` pattern used by the template patchers). -/
def setTextOfFirstValue (nm newText : String) : List XNode → List XNode
  | [] => []
  | XNode.elem t a tx cs :: rest =>
    if t = "Value" && getAttr a "name" = some nm then
      XNode.elem t a (some newText) cs :: rest
    else
      XNode.elem t a tx cs :: setTextOfFirstValue nm newText rest
  | XNode.comment tx :: rest => XNode.comment tx :: setTextOfFirstValue nm newText rest

/-- The `ScenarioParameters` dataclass: six ordered lists of categorical values. -/
structure ScenarioParameters where
  ssps : List String
  rcps : List String
  pr_adoption_rates : List Int
  technology_levels : List String
  supply_capacities : List String
  allocation_regulations : List String

/-- The dataclass field defaults of `ScenarioParameters`. -/
def defaultParameters : ScenarioParameters :=
  { ssps := ["SSP1", "SSP2", "SSP3", "SSP4", "SSP5"]
    rcps := ["2p6", "4p5", "6p0", "8p5"]
    pr_adoption_rates := [0, 25, 50, 75, 100]
    technology_levels := ["Basic", "Advanced"]
    supply_capacities := ["Low", "Medium", "High"]
    allocation_regulations := ["Market-driven", "Regulatory"] }

/-- Model of `ScenarioParameters.total_scenarios`. -/
def total_scenarios (p : ScenarioParameters) : Nat :=
  p.ssps.length * p.rcps.length * p.pr_adoption_rates.length *
    p.technology_levels.length * p.supply_capacities.length *
    p.allocation_regulations.length

/-- One element of the Cartesian product of the six parameter lists. -/
structure ScenarioTuple where
  ssp : String
  rcp : String
  pr_rate : Int
  tech : String
  supply : String
  allocation : String
deriving DecidableEq, Repr

/-- The file system as seen by `SSPComponentExtractor`: for each pathway
id, either the parsed `(name, text)` component list of
`{ssp}_config.xml`, or `none` when that file is missing from disk or
fails to parse. -/
def FS : Type := String → Option (List (String × String))

/-- Model of `SSPComponentExtractor.extract_ssp_components`: returns the parsed
components, or the empty list when the source file is missing or
malformed (the logged fail-soft branches). -/
def extract_ssp_components (fs : FS) (ssp : String) : List (String × String) :=
  match fs ssp with
  | none => []
  | some comps => comps

/-- The `BaseTemplateManager` state: the path and the canonical parsed
template. -/
structure BaseTemplateManager where
  template_path : String
  template_root : XNode

/-- Model of `BaseTemplateManager._get_spa_code`: the two fixed SPA mappings and
the `.get(ssp, "0")` default. -/
def spa_mapping (rcp : String) : List (String × String) :=
  if rcp = "6p0" then
    [("SSP1", "1"), ("SSP2", "235"), ("SSP3", "235"), ("SSP4", "4"), ("SSP5", "0")]
  else
    [("SSP1", "1"), ("SSP2", "23"), ("SSP3", "23"), ("SSP4", "4"), ("SSP5", "5")]

/-- Lookup with default: `spa_mapping.get(ssp, "0")`. -/
def get_spa_code (ssp rcp : String) : String :=
  ((spa_mapping rcp).lookup ssp).getD "0"

/-- Model of `BaseTemplateManager._update_scenario_name`. -/
def update_scenario_name (root : XNode) (scenario_name : String) : XNode :=
  updateSection "Strings" (setTextOfFirstValue "scenarioName" scenario_name) root

/-- Model of `BaseTemplateManager._update_policy_target`. -/
def update_policy_target (root : XNode) (rcp ssp : String) : XNode :=
  updateSection "Files"
    (setTextOfFirstValue "policy-target-file"
      ("../input/policy/policy_target_" ++ rcp ++ "_spa" ++ get_spa_code ssp rcp ++ ".xml"))
    root

/-- Model of `BaseTemplateManager._update_database_location`. -/
def update_database_location (root : XNode) (scenario_name : String) : XNode :=
  updateSection "Files"
    (setTextOfFirstValue "xmldb-location" ("../output/db_" ++ scenario_name)) root

/-- Model of `BaseTemplateManager.create_scenario_config`: deep-copy of the
canonical root (in the functional model: the template value itself,
which subsequent rebuilding never touches), then the three patches.
The manager is threaded through so frame properties are statable. -/
def create_scenario_config (m : BaseTemplateManager) (scenario_name rcp ssp : String) :
    XNode × BaseTemplateManager :=
  let scenario_root := m.template_root
  let r1 := update_scenario_name scenario_root scenario_name
  let r2 := update_policy_target r1 rcp ssp
  let r3 := update_database_location r2 scenario_name
  (r3, m)

/-- One appended node of `append_ssp_components`: an XML comment when
the name carries the `COMMENT_` marker AND the payload starts with
`<!--` (delimiters stripped, text re-wrapped in single spaces),
otherwise a `Value` element with a `name` attribute and text payload. -/
def componentNode (name path : String) : XNode :=
  if strStarts name "COMMENT_" && strStarts path "<!--" then
    XNode.comment (" " ++ strStrip (strReplace (strReplace path "<!--" "") "-->" "") ++ " ")
  else
    XNode.elem "Value" [("name", name)] (some path) []

/-- Model of `BaseTemplateManager.append_ssp_components`: appends every entry, in
order, to the `ScenarioComponents` section; a missing section means the
document is returned unchanged (the logged early `return`). -/
def append_ssp_components (root : XNode) (components : List (String × String)) : XNode :=
  match findChild root "ScenarioComponents" with
  | none => root
  | some _ =>
    updateSection "ScenarioComponents"
      (fun cs => cs ++ components.map fun c => componentNode c.1 c.2) root

/-- Model of `GCAMConfigurationGenerator.generate_scenario_name`.  Python
`supply[0]` raises `IndexError` on an empty string, modelled as `none`
(the caller's driver catches the exception and skips the scenario,
exactly as it treats a `None` result). -/
def generate_scenario_name (ssp rcp : String) (pr_rate : Int)
    (tech supply allocation : String) : Option String :=
  let tech_short := if tech = "Advanced" then "Tech" else "Basic"
  let alloc_short := if allocation = "Regulatory" then "Reg" else "Mkt"
  match supply.data with
  | [] => none
  | c :: _ =>
    some (ssp ++ "_" ++ rcp ++ "_" ++ tech_short ++ "_" ++ String.mk [c] ++ "_" ++
      alloc_short ++ "_PR" ++ toString pr_rate)

/-- Name generation applied to a tuple. -/
def nameOf (t : ScenarioTuple) : Option String :=
  generate_scenario_name t.ssp t.rcp t.pr_rate t.tech t.supply t.allocation

/-- Model of `itertools.product` of the six lists, rightmost dimension varying
fastest. -/
def productTuples (as bs : List String) (cs : List Int) (ds es fs : List String) :
    List ScenarioTuple :=
  as.flatMap fun a => bs.flatMap fun b => cs.flatMap fun c => ds.flatMap fun d =>
    es.flatMap fun e => fs.map fun f => ⟨a, b, c, d, e, f⟩

/-- Model of `GCAMConfigurationGenerator._generate_combinations`: optional
filtering of the first list (a falsy filter — `None` or the empty
list — leaves it unfiltered), then the Cartesian product. -/
def generate_combinations (p : ScenarioParameters) (ssp_filter : Option (List String)) :
    List ScenarioTuple :=
  let filtered_ssps :=
    match ssp_filter with
    | some flt => if flt.isEmpty then p.ssps else p.ssps.filter (fun s => s ∈ flt)
    | none => p.ssps
  productTuples filtered_ssps p.rcps p.pr_adoption_rates p.technology_levels
    p.supply_capacities p.allocation_regulations

/-- Model of `GCAMConfigurationGenerator._generate_single_scenario`: returns the
written file's path together with the document written to it, or `none`
when the scenario fails (empty component list, or an exception such as
`supply[0]` on an empty string — caught and logged by the drivers). -/
def generate_single_scenario (m : BaseTemplateManager) (fs : FS) (output_path : String)
    (t : ScenarioTuple) : Option (String × XNode) :=
  match nameOf t with
  | none => none
  | some scenario_name =>
    let config_root := (create_scenario_config m scenario_name t.rcp t.ssp).1
    let ssp_components := extract_ssp_components fs t.ssp
    if ssp_components.isEmpty then none
    else
      let config2 := append_ssp_components config_root ssp_components
      some (output_path ++ "/" ++ scenario_name ++ ".xml", config2)

/-- Model of `GCAMConfigurationGenerator._generate_sequential`: the written file
paths, in enumeration order, skipping failed scenarios. -/
def generate_sequential (m : BaseTemplateManager) (fs : FS) (output_path : String)
    (scenarios : List ScenarioTuple) : List String :=
  scenarios.filterMap fun t => (generate_single_scenario m fs output_path t).map Prod.fst

/-- Worker-pool size of `_generate_concurrent`: `min(8, len(scenarios))`. -/
def concurrent_max_workers (scenarios : List ScenarioTuple) : Nat :=
  min 8 scenarios.length

/-- Model of `GCAMConfigurationGenerator._generate_concurrent`: all scenarios are
submitted to the pool and results are collected in `as_completed` order,
which is an arbitrary permutation `order` of the submitted list. -/
def generate_concurrent (m : BaseTemplateManager) (fs : FS) (output_path : String)
    (order : List ScenarioTuple) : List String :=
  order.filterMap fun t => (generate_single_scenario m fs output_path t).map Prod.fst

/-- The branch condition of `generate_all_configs`:
`use_concurrency and len(scenario_combinations) > 1`. -/
def uses_concurrent_path (use_concurrency : Bool) (n : Nat) : Bool :=
  use_concurrency && decide (1 < n)

/-- Model of `GCAMConfigurationGenerator.generate_all_configs`: `order` is the
completion order of the pool in the concurrent branch (constrained to a
permutation of the combinations in the theorems); the sequential branch
ignores it. -/
def generate_all_configs (m : BaseTemplateManager) (fs : FS) (p : ScenarioParameters)
    (output_directory : String) (ssp_filter : Option (List String))
    (use_concurrency : Bool) (order : List ScenarioTuple) : List String :=
  let scenario_combinations := generate_combinations p ssp_filter
  if uses_concurrent_path use_concurrency scenario_combinations.length then
    generate_concurrent m fs output_directory order
  else
    generate_sequential m fs output_directory scenario_combinations

/-- One generation request against the template manager: the arguments
of `create_scenario_config` plus the components later appended to the
returned copy. -/
structure ConfigRequest where
  scenario_name : String
  rcp : String
  ssp : String
  components : List (String × String)

/-- A sequence of `create_scenario_config` calls, each followed by
`append_ssp_components` on the returned copy, threading the manager
state; returns the produced documents and the final manager. -/
def runScenarios (m : BaseTemplateManager) :
    List ConfigRequest → List XNode × BaseTemplateManager
  | [] => ([], m)
  | r :: rs =>
    let c := create_scenario_config m r.scenario_name r.rcp r.ssp
    let doc := append_ssp_components c.1 r.components
    let rest := runScenarios c.2 rs
    (doc :: rest.1, rest.2)

/-- The document `create_scenario_config` produces, as a function of the
canonical template only. -/
def scenarioDocOf (m : BaseTemplateManager) (r : ConfigRequest) : XNode :=
  append_ssp_components
    (create_scenario_config m r.scenario_name r.rcp r.ssp).1 r.components

/-- Modelled from the spec: the name formula of section 4.3 read
literally, with `SupplyInitial` the first character of the
supply-capacity value *uppercased* — compared against the code's
`generate_scenario_name` for the refinement claim. -/
def claimed_scenario_name (ssp rcp : String) (pr_rate : Int)
    (tech supply allocation : String) : Option String :=
  let techShort := if tech = "Advanced" then "Tech" else "Basic"
  let allocShort := if allocation = "Regulatory" then "Reg" else "Mkt"
  match supply.data with
  | [] => none
  | c :: _ =>
    some (ssp ++ "_" ++ rcp ++ "_" ++ techShort ++ "_" ++ String.mk [c.toUpper] ++ "_" ++
      allocShort ++ "_PR" ++ toString pr_rate)

/-- The amended name formula: identical to the claimed one except that
`SupplyInitial` is the first character of the supply value taken as-is
(not uppercased). -/
def amended_scenario_name (ssp rcp : String) (pr_rate : Int)
    (tech supply allocation : String) : Option String :=
  let techShort := if tech = "Advanced" then "Tech" else "Basic"
  let allocShort := if allocation = "Regulatory" then "Reg" else "Mkt"
  match supply.data with
  | [] => none
  | c :: _ =>
    some (ssp ++ "_" ++ rcp ++ "_" ++ techShort ++ "_" ++ String.mk [c] ++ "_" ++
      allocShort ++ "_PR" ++ toString pr_rate)

/-- Split a character list at every underscore. -/
def splitUnders : List Char → List (List Char)
  | [] => [[]]
  | c :: rest =>
    let r := splitUnders rest
    if c = '_' then [] :: r
    else
      match r with
      | [] => [[c]]
      | h :: t => (c :: h) :: t

/-- Decimal digit value. -/
def digitVal (c : Char) : Option Nat :=
  if '0' ≤ c && c ≤ '9' then some (c.toNat - '0'.toNat) else none

/-- Parse a non-empty all-digit character list as a natural number. -/
def parseNatL (cs : List Char) : Option Nat :=
  cs.foldl (fun acc c => acc.bind fun n => (digitVal c).map fun d => 10 * n + d)
    (if cs.isEmpty then none else some 0)

/-- Left inverse of the name generator on the categorical domains:
recovers the parameter tuple from a generated scenario name. -/
def decodeName (s : String) : Option ScenarioTuple :=
  match splitUnders s.data with
  | [a, b, c, d, e, f] =>
    match f with
    | 'P' :: 'R' :: digits =>
      match parseNatL digits with
      | none => none
      | some r =>
        match d with
        | [sc] =>
          let supply :=
            if sc = 'L' then some "Low"
            else if sc = 'M' then some "Medium"
            else if sc = 'H' then some "High"
            else none
          match supply with
          | none => none
          | some sup =>
            some { ssp := String.mk a, rcp := String.mk b,
                   pr_rate := Int.ofNat r,
                   tech := if String.mk c = "Tech" then "Advanced" else "Basic",
                   supply := sup,
                   allocation := if String.mk e = "Reg" then "Regulatory" else "Market-driven" }
        | _ => none
    | _ => none
  | _ => none

/-- Name generation followed by decoding recovers the tuple. -/
def nameRoundTrip (t : ScenarioTuple) : Bool :=
  match nameOf t with
  | none => false
  | some n => decide (decodeName n = some t)

/-- Modelled from the spec wording of C3: an entry is re-emitted as a
comment node whenever its *name* carries the `COMMENT_` marker,
regardless of the payload (this is the claim's classification rule; the
code additionally requires the payload to start with a comment-open
delimiter). -/
def claimedComponentNode (name path : String) : XNode :=
  if strStarts name "COMMENT_" then
    XNode.comment (" " ++ strStrip (strReplace (strReplace path "<!--" "") "-->" "") ++ " ")
  else
    XNode.elem "Value" [("name", name)] (some path) []

/-- C1: SPA policy-variant code resolution: under rcp "6p0", SSP2/SSP3
give "235", SSP5 falls back to "0", SSP1 gives "1", SSP4 gives "4"; under
any other rcp, SSP2/SSP3 give "23" and SSP5 gives "5"; any ssp outside
SSP1..SSP5 gives "0" for every rcp. -/
theorem C1_spa_code_resolution :
    (get_spa_code "SSP2" "6p0" = "235" ∧ get_spa_code "SSP3" "6p0" = "235" ∧
      get_spa_code "SSP5" "6p0" = "0" ∧ get_spa_code "SSP1" "6p0" = "1" ∧
      get_spa_code "SSP4" "6p0" = "4") ∧
    (∀ rcp : String, rcp ≠ "6p0" →
      get_spa_code "SSP2" rcp = "23" ∧ get_spa_code "SSP3" rcp = "23" ∧
      get_spa_code "SSP5" rcp = "5") ∧
    (∀ ssp rcp : String, ssp ∉ (["SSP1", "SSP2", "SSP3", "SSP4", "SSP5"] : List String) →
      get_spa_code ssp rcp = "0") := by
  refine ⟨by decide, ?_, ?_⟩
  · intro rcp h
    simp [get_spa_code, spa_mapping, h, List.lookup]
  · intro ssp rcp h
    simp only [List.mem_cons, List.not_mem_nil, or_false, not_or] at h
    obtain ⟨h1, h2, h3, h4, h5⟩ := h
    have b1 : (ssp == "SSP1") = false := beq_eq_false_iff_ne.mpr h1
    have b2 : (ssp == "SSP2") = false := beq_eq_false_iff_ne.mpr h2
    have b3 : (ssp == "SSP3") = false := beq_eq_false_iff_ne.mpr h3
    have b4 : (ssp == "SSP4") = false := beq_eq_false_iff_ne.mpr h4
    have b5 : (ssp == "SSP5") = false := beq_eq_false_iff_ne.mpr h5
    unfold get_spa_code spa_mapping
    split <;> simp [List.lookup, b1, b2, b3, b4, b5]

/-- C1 witness: instantiation at rcp "4p5" and the unrecognized ssp "SSP9". -/
theorem C1_spa_code_resolution_witness :
    get_spa_code "SSP2" "4p5" = "23" ∧ get_spa_code "SSP9" "8p5" = "0" :=
  ⟨(C1_spa_code_resolution.2.1 "4p5" (by decide)).1,
   C1_spa_code_resolution.2.2 "SSP9" "8p5" (by decide)⟩

/-- C2: the canonical template is never mutated: after any sequence of
`create_scenario_config` calls (each followed by `append_ssp_components`
on the returned copy) the manager still holds the tree loaded at
construction, every produced document is the pure function of the
original template and the request, and a later call produces a document
identical to one made before any earlier call. -/
theorem C2_template_never_mutated (m : BaseTemplateManager) (reqs : List ConfigRequest) :
    (runScenarios m reqs).2 = m ∧
    (runScenarios m reqs).1 = reqs.map (scenarioDocOf m) ∧
    (∀ r : ConfigRequest, scenarioDocOf (runScenarios m reqs).2 r = scenarioDocOf m r) := by
  induction reqs with
  | nil => exact ⟨rfl, rfl, fun _ => rfl⟩
  | cons r rs ih =>
    simp only [runScenarios, create_scenario_config, List.map_cons]
    exact ⟨ih.1, by rw [ih.2.1]; rfl, fun q => by rw [ih.1]⟩

theorem find?_append_of_none {p : XNode → Bool} {pre rest : List XNode}
    (h : ∀ n ∈ pre, p n = false) : (pre ++ rest).find? p = rest.find? p := by
  induction pre with
  | nil => rfl
  | cons n pre ih =>
    rw [List.cons_append, List.find?_cons, h n (by simp)]
    exact ih fun q hq => h q (by simp [hq])

theorem updateChildrenOfFirst_append (target : String) (f : List XNode → List XNode)
    (pre rest : List XNode) (h : ∀ n ∈ pre, isElemTag n target = false) :
    updateChildrenOfFirst target f (pre ++ rest) = pre ++ updateChildrenOfFirst target f rest := by
  induction pre with
  | nil => rfl
  | cons n pre ih =>
    have hn := h n (by simp)
    have hrest : ∀ q ∈ pre, isElemTag q target = false := fun q hq => h q (by simp [hq])
    cases n with
    | elem t a tx cs =>
      have ht : ¬t = target := by
        intro hc; rw [isElemTag, decide_eq_false_iff_not] at hn; exact hn hc
      simp [updateChildrenOfFirst, ht, ih hrest]
    | comment tx => simp [updateChildrenOfFirst, ih hrest]

/-- C3 counterexample: with entry name carrying the `COMMENT_` marker
but payload lacking the `<!--` delimiter, the code appends a *data*
node, while the claim's name-only classification would produce a
comment node. -/
theorem C3_counterexample :
    append_ssp_components
        (XNode.elem "Configuration" [] none [XNode.elem "ScenarioComponents" [] none []])
        [("COMMENT_extra", "plain")] =
      XNode.elem "Configuration" [] none
        [XNode.elem "ScenarioComponents" [] none
          [XNode.elem "Value" [("name", "COMMENT_extra")] (some "plain") []]] ∧
    claimedComponentNode "COMMENT_extra" "plain" = XNode.comment " plain " ∧
    XNode.elem "Value" [("name", "COMMENT_extra")] (some "plain") [] ≠
      XNode.comment " plain " :=
  ⟨rfl, rfl, fun h => nomatch h⟩

/-- C3 (amended): `append_ssp_components` appends exactly the input
entries to the components region, in input order, one node per entry
with no deduplication; an entry becomes a comment node when its name
carries the `COMMENT_` marker AND its payload starts with `<!--`
(delimiters stripped, text re-wrapped), and a data node (name attribute
plus text payload) otherwise. -/
theorem C3_append_order_count (rt : String) (ra : List (String × String))
    (rtx : Option String) (pre post scs : List XNode) (sa : List (String × String))
    (stx : Option String) (comps : List (String × String))
    (hpre : ∀ n ∈ pre, isElemTag n "ScenarioComponents" = false) :
    append_ssp_components
        (XNode.elem rt ra rtx (pre ++ XNode.elem "ScenarioComponents" sa stx scs :: post))
        comps =
      XNode.elem rt ra rtx
        (pre ++ XNode.elem "ScenarioComponents" sa stx
          (scs ++ comps.map fun c => componentNode c.1 c.2) :: post) ∧
    (comps.map fun c => componentNode c.1 c.2).length = comps.length ∧
    (∀ c ∈ comps, componentNode c.1 c.2 =
      if strStarts c.1 "COMMENT_" && strStarts c.2 "<!--" then
        XNode.comment (" " ++ strStrip (strReplace (strReplace c.2 "<!--" "") "-->" "") ++ " ")
      else XNode.elem "Value" [("name", c.1)] (some c.2) []) := by
  refine ⟨?_, List.length_map _ _, fun c _ => rfl⟩
  have hfind : findChild
      (XNode.elem rt ra rtx (pre ++ XNode.elem "ScenarioComponents" sa stx scs :: post))
      "ScenarioComponents" =
      some (XNode.elem "ScenarioComponents" sa stx scs) := by
    rw [findChild, find?_append_of_none hpre, List.find?_cons]
    simp [isElemTag]
  rw [append_ssp_components, hfind]
  rw [updateSection, updateChildrenOfFirst_append _ _ _ _ hpre]
  simp [updateChildrenOfFirst]

/-- C3 witness: appending a data entry and a marked comment entry to a
document whose components region already holds one node. -/
theorem C3_append_order_count_witness :
    append_ssp_components
        (XNode.elem "Configuration" [] none
          [XNode.comment " head ",
           XNode.elem "ScenarioComponents" [] none
             [XNode.elem "Value" [("name", "old")] (some "x.xml") []]])
        [("solar", "solar.xml"), ("COMMENT_note", "<!-- note -->")] =
      XNode.elem "Configuration" [] none
        [XNode.comment " head ",
         XNode.elem "ScenarioComponents" [] none
           [XNode.elem "Value" [("name", "old")] (some "x.xml") [],
            XNode.elem "Value" [("name", "solar")] (some "solar.xml") [],
            XNode.comment " note "]] := by
  have h := (C3_append_order_count "Configuration" [] none [XNode.comment " head "]
    [] [XNode.elem "Value" [("name", "old")] (some "x.xml") []] [] none
    [("solar", "solar.xml"), ("COMMENT_note", "<!-- note -->")]
    (by intro n hn; simp at hn; subst hn; rfl)).1
  exact h

/-- C4 counterexample: with supply value "low" the code renders the
first character as-is ("l"), while the claim's formula demands the
uppercased "L"; the two name formulas disagree at this input. -/
theorem C4_counterexample :
    generate_scenario_name "SSP1" "2p6" 0 "Basic" "low" "Market-driven" =
      some "SSP1_2p6_Basic_l_Mkt_PR0" ∧
    claimed_scenario_name "SSP1" "2p6" 0 "Basic" "low" "Market-driven" =
      some "SSP1_2p6_Basic_L_Mkt_PR0" ∧
    generate_scenario_name "SSP1" "2p6" 0 "Basic" "low" "Market-driven" ≠
      claimed_scenario_name "SSP1" "2p6" 0 "Basic" "low" "Market-driven" := by
  refine ⟨rfl, rfl, ?_⟩
  decide

/-- C4 (amended): for every six-tuple, the generated name is
`{ssp}_{rcp}_{TechShort}_{SupplyInitial}_{AllocShort}_PR{rate}` with
`TechShort` = "Tech" iff tech is "Advanced" (else "Basic"),
`SupplyInitial` the first character of the supply value taken as-is
(not uppercased), `AllocShort` = "Reg" iff allocation is "Regulatory"
(else "Mkt"), and the adoption rate rendered without padding
(an empty supply value raises, modelled as `none` on both sides). -/
theorem C4_name_format (ssp rcp : String) (pr_rate : Int)
    (tech supply allocation : String) :
    generate_scenario_name ssp rcp pr_rate tech supply allocation =
      amended_scenario_name ssp rcp pr_rate tech supply allocation := by
  rw [generate_scenario_name, amended_scenario_name]

set_option maxRecDepth 100000 in
set_option maxHeartbeats 1600000 in
theorem nameRoundTrip_all :
    (generate_combinations defaultParameters none).all nameRoundTrip = true := by decide

/-- C5: over the default categorical domains (SSP1..SSP5, the four rcps,
rates 0/25/50/75/100, Basic/Advanced, Low/Medium/High,
Market-driven/Regulatory) the scenario-name generator is injective: two
tuples of the enumerated domain with the same generated name are equal
(determinism is immediate since it is a function). -/
theorem C5_name_injective (t1 t2 : ScenarioTuple)
    (h1 : t1 ∈ generate_combinations defaultParameters none)
    (h2 : t2 ∈ generate_combinations defaultParameters none)
    (heq : nameOf t1 = nameOf t2) : t1 = t2 := by
  have r1 := List.all_eq_true.mp nameRoundTrip_all t1 h1
  have r2 := List.all_eq_true.mp nameRoundTrip_all t2 h2
  cases hn1 : nameOf t1 with
  | none => simp [nameRoundTrip, hn1] at r1
  | some n =>
    have hn2 : nameOf t2 = some n := heq.symm.trans hn1
    simp only [nameRoundTrip, hn1] at r1
    simp only [nameRoundTrip, hn2] at r2
    exact Option.some.inj ((of_decide_eq_true r1).symm.trans (of_decide_eq_true r2))

/-- C5 witness: instantiation at the first enumerated tuple. -/
theorem C5_name_injective_witness :
    (⟨"SSP1", "2p6", 0, "Basic", "Low", "Market-driven"⟩ : ScenarioTuple) =
      ⟨"SSP1", "2p6", 0, "Basic", "Low", "Market-driven"⟩ :=
  C5_name_injective _ _ (by decide) (by decide) rfl

theorem length_flatMap_const {α β : Type} (l : List α) (f : α → List β) (n : Nat)
    (h : ∀ a ∈ l, (f a).length = n) : (l.flatMap f).length = l.length * n := by
  induction l with
  | nil => simp
  | cons a as ih =>
    rw [List.flatMap_cons, List.length_append, h a (by simp),
      ih (fun b hb => h b (by simp [hb])), List.length_cons, Nat.succ_mul, Nat.add_comm]

theorem productTuples_length (as bs : List String) (cs : List Int) (ds es fs_ : List String) :
    (productTuples as bs cs ds es fs_).length =
      as.length * (bs.length * (cs.length * (ds.length * (es.length * fs_.length)))) := by
  rw [productTuples]
  refine length_flatMap_const _ _ _ (fun a _ => ?_)
  refine length_flatMap_const _ _ _ (fun b _ => ?_)
  refine length_flatMap_const _ _ _ (fun c _ => ?_)
  refine length_flatMap_const _ _ _ (fun d _ => ?_)
  refine length_flatMap_const _ _ _ (fun e _ => ?_)
  exact List.length_map _ _

theorem mem_productTuples {t : ScenarioTuple} {as bs : List String} {cs : List Int}
    {ds es fs_ : List String} :
    t ∈ productTuples as bs cs ds es fs_ ↔
      t.ssp ∈ as ∧ t.rcp ∈ bs ∧ t.pr_rate ∈ cs ∧ t.tech ∈ ds ∧ t.supply ∈ es ∧
        t.allocation ∈ fs_ := by
  obtain ⟨a, b, c, d, e, f⟩ := t
  simp only [productTuples, List.mem_flatMap, List.mem_map]
  constructor
  · rintro ⟨a1, ha, b1, hb, c1, hc, d1, hd, e1, he, f1, hf, heq⟩
    cases heq
    exact ⟨ha, hb, hc, hd, he, hf⟩
  · rintro ⟨ha, hb, hc, hd, he, hf⟩
    exact ⟨a, ha, b, hb, c, hc, d, hd, e, he, f, hf, rfl⟩

theorem length_filterMap_of_isSome {α β : Type} (f : α → Option β) (l : List α)
    (h : ∀ a ∈ l, (f a).isSome = true) : (l.filterMap f).length = l.length := by
  induction l with
  | nil => rfl
  | cons a as ih =>
    rcases hfa : f a with _ | b
    · exact absurd (h a (by simp)) (by simp [hfa])
    · rw [List.filterMap_cons, hfa]
      simp only [List.length_cons, ih (fun q hq => h q (by simp [hq]))]

theorem startsWithL_append (xs ys : List Char) : startsWithL (xs ++ ys) xs = true := by
  induction xs with
  | nil => cases ys <;> rfl
  | cons c cs ih => simp [startsWithL, ih]

theorem startsWithL_of_eq_append (s pre rest : List Char) (h : s = pre ++ rest) :
    startsWithL s pre = true := by
  subst h
  exact startsWithL_append _ _

theorem nameOf_eq_some_of_supply (t : ScenarioTuple) (c : Char) (rest : List Char)
    (h : t.supply.data = c :: rest) :
    nameOf t = some (t.ssp ++ "_" ++ t.rcp ++ "_" ++
      (if t.tech = "Advanced" then "Tech" else "Basic") ++ "_" ++ String.mk [c] ++ "_" ++
      (if t.allocation = "Regulatory" then "Reg" else "Mkt") ++ "_PR" ++
      toString t.pr_rate) := by
  rw [nameOf, generate_scenario_name, h]

theorem generate_single_scenario_eq_some (m : BaseTemplateManager) (fs : FS) (out : String)
    (t : ScenarioTuple) (n : String) (hn : nameOf t = some n)
    (hc : extract_ssp_components fs t.ssp ≠ []) :
    generate_single_scenario m fs out t =
      some (out ++ "/" ++ n ++ ".xml",
        append_ssp_components (create_scenario_config m n t.rcp t.ssp).1
          (extract_ssp_components fs t.ssp)) := by
  rw [generate_single_scenario, hn]
  simp [List.isEmpty_eq_true, hc]

/-- C6: with the filter restricted to one pathway id `x` (the
intersection of the configured first list with the filter being exactly
`[x]`), and every per-tuple pipeline succeeding (components available
for `x`, supply values non-empty), the batch returns exactly
|rcps|*|rates|*|tech|*|supply|*|alloc| file paths, each beginning with
`outputDir/x`; the filter is applied to the first list before the
Cartesian product, whose remaining dimension order is preserved. -/
theorem C6_filtered_batch (m : BaseTemplateManager) (fs : FS) (p : ScenarioParameters)
    (out x : String)
    (hfilter : p.ssps.filter (fun s => s ∈ [x]) = [x])
    (hcomp : extract_ssp_components fs x ≠ [])
    (hsupply : ∀ s ∈ p.supply_capacities, s.data ≠ []) :
    generate_combinations p (some [x]) =
      productTuples [x] p.rcps p.pr_adoption_rates p.technology_levels
        p.supply_capacities p.allocation_regulations ∧
    (generate_all_configs m fs p out (some [x]) false []).length =
      p.rcps.length * (p.pr_adoption_rates.length * (p.technology_levels.length *
        (p.supply_capacities.length * p.allocation_regulations.length))) ∧
    ∀ path ∈ generate_all_configs m fs p out (some [x]) false [],
      strStarts path (out ++ "/" ++ x) = true := by
  have hgc : generate_combinations p (some [x]) =
      productTuples [x] p.rcps p.pr_adoption_rates p.technology_levels
        p.supply_capacities p.allocation_regulations := by
    rw [generate_combinations]
    simp only [List.isEmpty_cons, hfilter]
    rfl
  have hall : generate_all_configs m fs p out (some [x]) false [] =
      generate_sequential m fs out (generate_combinations p (some [x])) := by
    rw [generate_all_configs, uses_concurrent_path]
    simp
  have hsome : ∀ t ∈ generate_combinations p (some [x]),
      ((generate_single_scenario m fs out t).map Prod.fst).isSome = true := by
    intro t ht
    rw [hgc] at ht
    rw [mem_productTuples] at ht
    obtain ⟨hssp, _, _, _, hsup, _⟩ := ht
    have hx : t.ssp = x := by simpa using hssp
    rcases hd : t.supply.data with _ | ⟨c, rest⟩
    · exact absurd hd (hsupply t.supply hsup)
    · rw [generate_single_scenario_eq_some m fs out t _ (nameOf_eq_some_of_supply t c rest hd)
        (by rw [hx]; exact hcomp)]
      rfl
  refine ⟨hgc, ?_, ?_⟩
  · rw [hall, generate_sequential, length_filterMap_of_isSome _ _ hsome, hgc,
      productTuples_length]
    simp
  · intro path hpath
    rw [hall, generate_sequential, List.mem_filterMap] at hpath
    obtain ⟨t, ht, hmap⟩ := hpath
    have hx : t.ssp = x := by
      rw [hgc, mem_productTuples] at ht
      simpa using ht.1
    have hsup : t.supply ∈ p.supply_capacities := by
      rw [hgc, mem_productTuples] at ht
      exact ht.2.2.2.2.1
    rcases hd : t.supply.data with _ | ⟨c, rest⟩
    · exact absurd hd (hsupply t.supply hsup)
    · rw [generate_single_scenario_eq_some m fs out t _ (nameOf_eq_some_of_supply t c rest hd)
        (by rw [hx]; exact hcomp)] at hmap
      simp only [Option.map_some', Option.some.injEq] at hmap
      rw [← hmap, strStarts]
      simp only [String.data_append, hx, List.append_assoc]
      apply startsWithL_of_eq_append
      simp only [List.append_assoc]
      rfl

/-- C6 witness: the default parameter lists filtered to "SSP2", with a
file system holding components only for SSP2. -/
theorem C6_filtered_batch_witness :
    (generate_all_configs ⟨"configuration_reuse100.xml", XNode.elem "Configuration" [] none []⟩
        (fun s => if s = "SSP2" then some [("solar", "solar.xml")] else none)
        defaultParameters "configs" (some ["SSP2"]) false []).length =
      defaultParameters.rcps.length * (defaultParameters.pr_adoption_rates.length *
        (defaultParameters.technology_levels.length *
          (defaultParameters.supply_capacities.length *
            defaultParameters.allocation_regulations.length))) :=
  (C6_filtered_batch _ _ _ _ _ (by decide) (by decide) (by decide)).2.1

theorem filterMap_eq_nil_of_none {α β : Type} (f : α → Option β) (l : List α)
    (h : ∀ a ∈ l, f a = none) : l.filterMap f = [] := by
  induction l with
  | nil => rfl
  | cons a as ih => rw [List.filterMap_cons, h a (by simp)]; exact ih fun q hq => h q (by simp [hq])

theorem generate_single_scenario_none_of_ssp (m : BaseTemplateManager) (fs : FS)
    (out : String) (t : ScenarioTuple) (h : extract_ssp_components fs t.ssp = []) :
    generate_single_scenario m fs out t = none := by
  rw [generate_single_scenario]
  rcases hn : nameOf t with _ | n
  · rfl
  · simp [h]

/-- The ssp field of any tuple of the inner (five-list) product block. -/
theorem ssp_of_mem_inner {t : ScenarioTuple} {a : String} {bs : List String}
    {cs : List Int} {ds es fs_ : List String}
    (h : t ∈ bs.flatMap fun b => cs.flatMap fun c => ds.flatMap fun d =>
      es.flatMap fun e => fs_.map fun f => (⟨a, b, c, d, e, f⟩ : ScenarioTuple)) :
    t.ssp = a := by
  simp only [List.mem_flatMap, List.mem_map] at h
  obtain ⟨b, _, c, _, d, _, e, _, f, _, rfl⟩ := h
  rfl

theorem filterMap_flatMap_filter {α β γ : Type} (l : List α) (F : α → List β)
    (g : β → Option γ) (q : α → Bool)
    (h : ∀ a ∈ l, q a = false → (F a).filterMap g = []) :
    (l.flatMap F).filterMap g = ((l.filter q).flatMap F).filterMap g := by
  induction l with
  | nil => rfl
  | cons a rest ih =>
    rw [List.flatMap_cons, List.filterMap_append, List.filter_cons]
    rcases hq : q a with _ | _
    · rw [h a (by simp) hq, List.nil_append,
        ih fun b hb hf => h b (List.mem_cons_of_mem a hb) hf]
      simp
    · rw [if_pos rfl, List.flatMap_cons, List.filterMap_append,
        ih fun b hb hf => h b (List.mem_cons_of_mem a hb) hf]

theorem seq_skips_failing_ssp (m : BaseTemplateManager) (fs : FS) (out x : String)
    (hnone : ∀ t : ScenarioTuple, t.ssp = x → generate_single_scenario m fs out t = none)
    (as bs : List String) (cs : List Int) (ds es fs_ : List String) :
    generate_sequential m fs out (productTuples as bs cs ds es fs_) =
      generate_sequential m fs out
        (productTuples (as.filter (fun s => s ≠ x)) bs cs ds es fs_) := by
  refine filterMap_flatMap_filter as
    (fun a => bs.flatMap fun b => cs.flatMap fun c => ds.flatMap fun d =>
      es.flatMap fun e => fs_.map fun f => (⟨a, b, c, d, e, f⟩ : ScenarioTuple))
    (fun t => (generate_single_scenario m fs out t).map Prod.fst)
    (fun s => s ≠ x) (fun a _ hq => ?_)
  have hax : a = x := by simpa using hq
  subst hax
  exact filterMap_eq_nil_of_none _ _ fun t ht => by
    rw [hnone t (ssp_of_mem_inner ht)]; rfl

/-- C7: a pathway source file missing on disk yields the empty component
sequence (fail-soft, no exception); every tuple of that pathway id
produces no file; and the sequential batch result equals the batch over
the parameter set with that pathway id removed — other pathways are
unaffected and the failure never aborts the batch. -/
theorem C7_missing_file_isolation (m : BaseTemplateManager) (fs : FS)
    (p : ScenarioParameters) (out x : String) (hmiss : fs x = none) :
    extract_ssp_components fs x = [] ∧
    (∀ t : ScenarioTuple, t.ssp = x → generate_single_scenario m fs out t = none) ∧
    generate_sequential m fs out (generate_combinations p none) =
      generate_sequential m fs out
        (generate_combinations { p with ssps := p.ssps.filter (fun s => s ≠ x) } none) := by
  have hext : extract_ssp_components fs x = [] := by rw [extract_ssp_components, hmiss]
  have hnone : ∀ t : ScenarioTuple, t.ssp = x → generate_single_scenario m fs out t = none :=
    fun t ht => generate_single_scenario_none_of_ssp m fs out t (ht ▸ hext)
  exact ⟨hext, hnone, seq_skips_failing_ssp m fs out x hnone p.ssps p.rcps
    p.pr_adoption_rates p.technology_levels p.supply_capacities p.allocation_regulations⟩

/-- C7 witness: the SSP3 source file is missing, default parameters. -/
theorem C7_missing_file_isolation_witness :
    extract_ssp_components
      (fun s => if s = "SSP3" then none else some [("solar", "solar.xml")]) "SSP3" = [] :=
  (C7_missing_file_isolation
    ⟨"configuration_reuse100.xml", XNode.elem "Configuration" [] none []⟩
    (fun s => if s = "SSP3" then none else some [("solar", "solar.xml")])
    defaultParameters "configs" "SSP3" (by simp)).1

/-- C8: for the same inputs, the concurrent driver (under any completion
order, i.e. any permutation of the submitted combinations) and the
sequential driver produce permutations of each other: the same set of
output file paths, and — at the level of (path, document) pairs — an
identical document for each written file; the worker pool has size
`min(8, number of tuples)`. -/
theorem C8_concurrent_matches_sequential (m : BaseTemplateManager) (fs : FS)
    (p : ScenarioParameters) (out : String) (flt : Option (List String))
    (order : List ScenarioTuple)
    (hperm : order.Perm (generate_combinations p flt)) :
    (generate_all_configs m fs p out flt true order).Perm
      (generate_all_configs m fs p out flt false order) ∧
    (∀ path, path ∈ generate_all_configs m fs p out flt true order ↔
      path ∈ generate_all_configs m fs p out flt false order) ∧
    (order.filterMap (generate_single_scenario m fs out)).Perm
      ((generate_combinations p flt).filterMap (generate_single_scenario m fs out)) ∧
    concurrent_max_workers (generate_combinations p flt) =
      min 8 (generate_combinations p flt).length := by
  have hmain : (generate_all_configs m fs p out flt true order).Perm
      (generate_all_configs m fs p out flt false order) := by
    rw [generate_all_configs, generate_all_configs, uses_concurrent_path,
      uses_concurrent_path]
    by_cases h2 : 1 < (generate_combinations p flt).length
    · simp only [Bool.true_and, Bool.false_and, decide_eq_true_eq, if_pos h2,
        decide_eq_false_iff_not, if_neg (by simp : ¬(false = true ∧ True)),
        Bool.false_eq_true, if_false]
      exact hperm.filterMap _
    · simp [h2]
  exact ⟨hmain, fun path => hmain.mem_iff, hperm.filterMap _, rfl⟩

/-- C8 witness: the identity completion order over the default
combination list. -/
theorem C8_concurrent_matches_sequential_witness :
    concurrent_max_workers (generate_combinations defaultParameters none) =
      min 8 (generate_combinations defaultParameters none).length :=
  (C8_concurrent_matches_sequential
    ⟨"configuration_reuse100.xml", XNode.elem "Configuration" [] none []⟩
    (fun _ => some [("solar", "solar.xml")]) defaultParameters "configs" none
    (generate_combinations defaultParameters none) (List.Perm.refl _)).2.2.2

/-- C9: the concurrent path is taken exactly when `use_concurrency` is
true and there are at least two combinations; with zero or one
combinations every mode runs the sequential driver. -/
theorem C9_concurrency_branch (m : BaseTemplateManager) (fs : FS) (p : ScenarioParameters)
    (out : String) (flt : Option (List String)) (order : List ScenarioTuple) (u : Bool)
    (hsmall : (generate_combinations p flt).length ≤ 1) :
    (∀ (u2 : Bool) (n : Nat), uses_concurrent_path u2 n = true ↔ u2 = true ∧ 2 ≤ n) ∧
    generate_all_configs m fs p out flt u order =
      generate_sequential m fs out (generate_combinations p flt) := by
  constructor
  · intro u2 n
    rw [uses_concurrent_path]
    cases u2 with
    | false => simp
    | true => simp; omega
  · rw [generate_all_configs, uses_concurrent_path]
    have h2 : ¬(1 < (generate_combinations p flt).length) := by omega
    simp [h2]

/-- C9 witness: one single combination with concurrency requested. -/
theorem C9_concurrency_branch_witness :
    generate_all_configs
        ⟨"configuration_reuse100.xml", XNode.elem "Configuration" [] none []⟩
        (fun _ => some [("solar", "solar.xml")])
        ⟨["SSP1"], ["2p6"], [0], ["Basic"], ["Low"], ["Market-driven"]⟩
        "configs" none true [] =
      generate_sequential
        ⟨"configuration_reuse100.xml", XNode.elem "Configuration" [] none []⟩
        (fun _ => some [("solar", "solar.xml")]) "configs"
        (generate_combinations
          ⟨["SSP1"], ["2p6"], [0], ["Basic"], ["Low"], ["Market-driven"]⟩ none) :=
  (C9_concurrency_branch _ _ _ _ _ [] true (by decide)).2

theorem find?_updateChildrenOfFirst_ne (t t2 : String) (f : List XNode → List XNode)
    (h : t2 ≠ t) (cs : List XNode) :
    (updateChildrenOfFirst t f cs).find? (fun n => isElemTag n t2) =
      cs.find? (fun n => isElemTag n t2) := by
  induction cs with
  | nil => rfl
  | cons n rest ih =>
    cases n with
    | comment tx =>
      rw [updateChildrenOfFirst, List.find?_cons, List.find?_cons]
      exact ih
    | elem t0 a0 tx0 cs0 =>
      by_cases h0 : t0 = t
      · rw [updateChildrenOfFirst, if_pos h0, List.find?_cons, List.find?_cons]
        have hne : isElemTag (XNode.elem t0 a0 tx0 cs0) t2 = false := by
          rw [isElemTag, decide_eq_false_iff_not]
          intro hc
          exact h (hc ▸ h0)
        have hne2 : isElemTag (XNode.elem t0 a0 tx0 (f cs0)) t2 = false := by
          rw [isElemTag, decide_eq_false_iff_not]
          intro hc
          exact h (hc ▸ h0)
        rw [hne, hne2]
      · rw [updateChildrenOfFirst, if_neg h0, List.find?_cons, List.find?_cons]
        rcases hel : isElemTag (XNode.elem t0 a0 tx0 cs0) t2 with _ | _
        · exact ih
        · rfl

theorem findChild_updateSection_ne (root : XNode) (t t2 : String)
    (f : List XNode → List XNode) (h : t2 ≠ t) :
    findChild (updateSection t f root) t2 = findChild root t2 := by
  cases root with
  | comment tx => rfl
  | elem rt ra rtx cs =>
    rw [updateSection, findChild, findChild]
    exact find?_updateChildrenOfFirst_ne t t2 f h cs

theorem append_ssp_components_of_no_region (root : XNode) (comps : List (String × String))
    (h : findChild root "ScenarioComponents" = none) :
    append_ssp_components root comps = root := by
  rw [append_ssp_components, h]

/-- C10: when the `ScenarioComponents` region is absent,
`append_ssp_components` returns the document unchanged (no exception)
for every entry list, and the per-scenario pipeline still produces the
output file — the patched copy with nothing appended — and the driver
counts the scenario as a success. -/
theorem C10_missing_components_region (root : XNode) (comps : List (String × String))
    (m : BaseTemplateManager) (fs : FS) (out : String) (t : ScenarioTuple) (n : String)
    (hroot : findChild root "ScenarioComponents" = none)
    (hm : findChild m.template_root "ScenarioComponents" = none)
    (hn : nameOf t = some n)
    (hcomps : extract_ssp_components fs t.ssp ≠ []) :
    append_ssp_components root comps = root ∧
    generate_single_scenario m fs out t =
      some (out ++ "/" ++ n ++ ".xml", (create_scenario_config m n t.rcp t.ssp).1) ∧
    generate_sequential m fs out [t] = [out ++ "/" ++ n ++ ".xml"] := by
  have hcfg : findChild (create_scenario_config m n t.rcp t.ssp).1 "ScenarioComponents" =
      none := by
    show findChild (update_database_location (update_policy_target
      (update_scenario_name m.template_root n) t.rcp t.ssp) n) "ScenarioComponents" = none
    rw [update_database_location, findChild_updateSection_ne _ _ _ _ (by decide),
      update_policy_target, findChild_updateSection_ne _ _ _ _ (by decide),
      update_scenario_name, findChild_updateSection_ne _ _ _ _ (by decide)]
    exact hm
  have hsingle : generate_single_scenario m fs out t =
      some (out ++ "/" ++ n ++ ".xml", (create_scenario_config m n t.rcp t.ssp).1) := by
    rw [generate_single_scenario_eq_some m fs out t n hn hcomps,
      append_ssp_components_of_no_region _ _ hcfg]
  refine ⟨append_ssp_components_of_no_region root comps hroot, hsingle, ?_⟩
  rw [generate_sequential, List.filterMap_cons, hsingle]
  rfl

/-- C10 witness: a template with no components region, one tuple,
non-empty components. -/
theorem C10_missing_components_region_witness :
    append_ssp_components (XNode.elem "Configuration" [] none
      [XNode.elem "Strings" [] none []]) [("solar", "solar.xml")] =
      XNode.elem "Configuration" [] none [XNode.elem "Strings" [] none []] ∧
    generate_sequential
        ⟨"configuration_reuse100.xml",
          XNode.elem "Configuration" [] none [XNode.elem "Strings" [] none []]⟩
        (fun _ => some [("solar", "solar.xml")]) "configs"
        [⟨"SSP1", "2p6", 0, "Basic", "Low", "Market-driven"⟩] =
      ["configs" ++ "/" ++ "SSP1_2p6_Basic_L_Mkt_PR0" ++ ".xml"] := by
  have h := C10_missing_components_region
    (XNode.elem "Configuration" [] none [XNode.elem "Strings" [] none []])
    [("solar", "solar.xml")]
    ⟨"configuration_reuse100.xml",
      XNode.elem "Configuration" [] none [XNode.elem "Strings" [] none []]⟩
    (fun _ => some [("solar", "solar.xml")]) "configs"
    ⟨"SSP1", "2p6", 0, "Basic", "Low", "Market-driven"⟩ "SSP1_2p6_Basic_L_Mkt_PR0"
    rfl rfl rfl (by decide)
  exact ⟨h.1, h.2.2⟩
